import Mathlib

/-!
# QUIC platform abstraction layer, Windows kernel mode

A shallow embedding of `src/platform/platform_winkernel.c`: the global platform
state, the four lifecycle entry points (`QuicPlatformSystemLoad`,
`QuicPlatformSystemUnload`, `QuicPlatformInitialize`, `QuicPlatformUninitialize`),
the random-number entry point `QuicRandom` and the ETW control callback
`QuicEtwCallback`.

Conventions of the embedding:

* pointers and handles are natural numbers, `NULL` is `0`;
* the C globals are the fields of `State`; every function takes the state and
  returns the new one;
* every call that leaves the file (BCrypt, `Zw*`, the TLS library, the tracing
  sink) is appended, in program order, to `State.Calls`;
* what the host answers to such a call is an explicit argument (an "outcome"
  record), so that a theorem quantifying over the outcome covers every
  behaviour of the host;
* the build modelled is the one without `QUIC_LOGS_WPP` and with
  `QUIC_DBG_ASSERT` compiled out (a release build): the two assertions on
  `QuicPlatform.RngAlgorithm != NULL` appear as hypotheses where they matter.
-/

namespace WinKernel

/-! ## Data model -/

/-- The null pointer / null handle. -/
def NULL : Nat := 0

/-- Modelled from the spec: `QUIC_STATUS` is declared in the platform header,
which is not among the sources.  Section 6 describes it: "Status is a
success/failure code plus an operation-specific numeric reason". -/
structure QUIC_STATUS where
  Failure : Bool
  Reason : Nat
  deriving DecidableEq, Repr

/-- Modelled from the spec: the macro `QUIC_FAILED` comes from the same absent
header; it reads the success/failure code of a status. -/
def QUIC_FAILED (Status : QUIC_STATUS) : Bool := Status.Failure

/-- The structure `SYSTEM_BASIC_INFORMATION` (lines 46-67), one field per member. -/
structure SYSTEM_BASIC_INFORMATION where
  Reserved : Nat
  TimerResolution : Nat
  PageSize : Nat
  NumberOfPhysicalPages : Nat
  LowestPhysicalPageNumber : Nat
  HighestPhysicalPageNumber : Nat
  AllocationGranularity : Nat
  MinimumUserModeAddress : Nat
  MaximumUserModeAddress : Nat
  ActiveProcessorsAffinityMask : Nat
  NumberOfProcessors : Nat
  deriving DecidableEq, Repr

/-- The value of `sizeof(SYSTEM_BASIC_INFORMATION)` on a 64-bit kernel: seven
`ULONG` (28 bytes), padding to 32, three `ULONG_PTR` (24 bytes), one `CCHAR`,
padding to the 8-byte alignment. -/
def sizeof_SYSTEM_BASIC_INFORMATION : Nat := 64

/-- The members `ULONG PageSize` and `ULONG NumberOfPhysicalPages` hold 32-bit
values. -/
def SYSTEM_BASIC_INFORMATION.IsULONG (Sbi : SYSTEM_BASIC_INFORMATION) : Prop :=
  Sbi.PageSize < 2 ^ 32 ∧ Sbi.NumberOfPhysicalPages < 2 ^ 32

/-- The type `QUIC_PLATFORM`; the source initialises it with `{ NULL, NULL }`. -/
structure QUIC_PLATFORM where
  DriverObject : Nat
  RngAlgorithm : Nat
  deriving DecidableEq, Repr

/-- A call that leaves the translation unit, with the arguments that matter. -/
inductive Call where
  | EventRegisterMicrosoft_Quic
  | InitializeTelemetryAssertsKM (RegistryPath : Nat)
  | KeQueryPerformanceCounter
  | UninitializeTelemetryAssertsKM
  | EventUnregisterMicrosoft_Quic
  | BCryptOpenAlgorithmProvider
  | BCryptCloseAlgorithmProvider (hAlgorithm : Nat) (dwFlags : Nat)
  | BCryptGenRandom (hAlgorithm : Nat) (cbBuffer : Nat) (dwFlags : Nat)
  | ZwQuerySystemInformation (SystemInformationLength : Nat) (ReturnLength : Nat)
  | QuicTlsLibraryInitialize
  | QuicTlsLibraryUninitialize
  | QuicTraceRundown
  | QuicTraceLogInfo (Message : String) (Args : List Nat)
  | QuicTraceEvent_LibraryErrorStatus (Status : QUIC_STATUS) (Where : String)
  | QuicTraceEvent_LibraryAssert (Line : Nat) (File : Nat) (Expr : Nat)
  deriving DecidableEq, Repr

/-- The globals of the file (lines 70-72) and the record of the calls made. -/
structure State where
  QuicPlatformPerfFreq : Nat
  QuicTotalMemory : Nat
  QuicPlatform : QUIC_PLATFORM
  Calls : List Call
  deriving DecidableEq, Repr

/-- The state at image load: zero-initialised globals,
`QuicPlatform = { NULL, NULL }`, no call made yet. -/
def State.initial : State :=
  { QuicPlatformPerfFreq := 0, QuicTotalMemory := 0,
    QuicPlatform := { DriverObject := NULL, RngAlgorithm := NULL }, Calls := [] }

/-- Record one outgoing call. -/
def State.call (s : State) (c : Call) : State :=
  { s with Calls := s.Calls ++ [c] }

/-! ## What the host answers -/

/-- Answer of `BCryptOpenAlgorithmProvider`: the status, and the handle stored
through `phAlgorithm` (`none` when the host leaves `*phAlgorithm` untouched). -/
structure OpenOutcome where
  Status : QUIC_STATUS
  phAlgorithm : Option Nat
  deriving DecidableEq, Repr

/-- Answer of `ZwQuerySystemInformation`: the status, the bytes left in the
caller's buffer, and the length the host reports through `ReturnLength` when the
caller passes a pointer for it. -/
structure QueryOutcome where
  Status : QUIC_STATUS
  SystemInformation : SYSTEM_BASIC_INFORMATION
  ReturnLength : Nat
  deriving DecidableEq, Repr

/-- Everything the host answers during one `QuicPlatformInitialize`. -/
structure InitOutcome where
  Open : OpenOutcome
  Query : QueryOutcome
  Tls : QUIC_STATUS
  deriving DecidableEq, Repr

/-- Answer of `BCryptGenRandom`: the status and the bytes left in the buffer. -/
structure GenOutcome where
  Status : QUIC_STATUS
  Buffer : List Nat
  deriving DecidableEq, Repr

/-! ## External functions, as seen by the caller -/

/-- The call `BCryptOpenAlgorithmProvider(phAlgorithm, ...)`: returns the status
and the content of `*phAlgorithm` after the call. -/
def BCryptOpenAlgorithmProvider (host : OpenOutcome) (phAlgorithm : Nat) :
    QUIC_STATUS × Nat :=
  (host.Status, host.phAlgorithm.getD phAlgorithm)

/-- The call `ZwQuerySystemInformation(Class, Buffer, Length, ReturnLength)`:
returns the status, the buffer, and what is stored through `ReturnLength`, which
is nothing when that pointer is `NULL`. -/
def ZwQuerySystemInformation (host : QueryOutcome) (ReturnLength : Nat) :
    QUIC_STATUS × SYSTEM_BASIC_INFORMATION × Option Nat :=
  (host.Status, host.SystemInformation,
    if ReturnLength = NULL then none else some host.ReturnLength)

/-! ## Control codes of the tracing controller -/

/-- The constant `EVENT_CONTROL_CODE_DISABLE_PROVIDER` of the system header
`evntprov.h`. -/
def EVENT_CONTROL_CODE_DISABLE_PROVIDER : Nat := 0

/-- The constant `EVENT_CONTROL_CODE_ENABLE_PROVIDER` of the system header
`evntprov.h`. -/
def EVENT_CONTROL_CODE_ENABLE_PROVIDER : Nat := 1

/-- The constant `EVENT_CONTROL_CODE_CAPTURE_STATE` of the system header
`evntprov.h`. -/
def EVENT_CONTROL_CODE_CAPTURE_STATE : Nat := 2

/-! ## The functions of `platform_winkernel.c` -/

/-- The function `QuicPlatformSystemLoad` (lines 77-95).  `PerformanceFrequency`
is what `KeQueryPerformanceCounter` stores in `QuicPlatformPerfFreq`. -/
def QuicPlatformSystemLoad (s : State) (DriverObject RegistryPath : Nat)
    (PerformanceFrequency : Nat) : State :=
  let s := s.call .EventRegisterMicrosoft_Quic
  let s := s.call (.InitializeTelemetryAssertsKM RegistryPath)
  let s := { s with QuicPlatform := { s.QuicPlatform with DriverObject := DriverObject } }
  let s := { s.call .KeQueryPerformanceCounter with
    QuicPlatformPerfFreq := PerformanceFrequency % 2 ^ 64 }
  let s := { s with QuicPlatform := { s.QuicPlatform with RngAlgorithm := NULL } }
  s.call (.QuicTraceLogInfo ("[ sys] Loaded") [])

/-- The function `QuicPlatformSystemUnload` (lines 100-112). -/
def QuicPlatformSystemUnload (s : State) : State :=
  let s := s.call (.QuicTraceLogInfo ("[ sys] Unloaded") [])
  let s := s.call .UninitializeTelemetryAssertsKM
  s.call .EventUnregisterMicrosoft_Quic

/-- The code after the label `Error:` of `QuicPlatformInitialize`
(lines 160-169): on a failing status an open provider is closed and the handle
reset; the status is returned. -/
def QuicPlatformInitialize.Error (s : State) (Status : QUIC_STATUS) :
    QUIC_STATUS × State :=
  if QUIC_FAILED Status then
    if s.QuicPlatform.RngAlgorithm ≠ NULL then
      let s := s.call (.BCryptCloseAlgorithmProvider s.QuicPlatform.RngAlgorithm 0)
      (Status, { s with QuicPlatform := { s.QuicPlatform with RngAlgorithm := NULL } })
    else
      (Status, s)
  else
    (Status, s)

/-- The function `QuicPlatformInitialize` (lines 117-170). -/
def QuicPlatformInitialize (s : State) (host : InitOutcome) : QUIC_STATUS × State :=
  let r := BCryptOpenAlgorithmProvider host.Open s.QuicPlatform.RngAlgorithm
  let Status := r.1
  let s := { s.call .BCryptOpenAlgorithmProvider with
    QuicPlatform := { s.QuicPlatform with RngAlgorithm := r.2 } }
  if QUIC_FAILED Status then
    let s := s.call
      (.QuicTraceEvent_LibraryErrorStatus Status ("BCryptOpenAlgorithmProvider (RNG)"))
    QuicPlatformInitialize.Error s Status
  else
    let q := ZwQuerySystemInformation host.Query NULL
    let Status := q.1
    let Sbi := q.2.1
    let s := s.call (.ZwQuerySystemInformation sizeof_SYSTEM_BASIC_INFORMATION NULL)
    if QUIC_FAILED Status then
      let s := s.call (.QuicTraceEvent_LibraryErrorStatus Status
        ("ZwQuerySystemInformation(SystemBasicInformation)"))
      QuicPlatformInitialize.Error s Status
    else
      let Status := host.Tls
      let s := s.call .QuicTlsLibraryInitialize
      if QUIC_FAILED Status then
        let s := s.call
          (.QuicTraceEvent_LibraryErrorStatus Status ("QuicTlsLibraryInitialize"))
        QuicPlatformInitialize.Error s Status
      else
        let s := { s with QuicTotalMemory :=
          ((Sbi.NumberOfPhysicalPages % 2 ^ 64) * (Sbi.PageSize % 2 ^ 64)) % 2 ^ 64 }
        let s := s.call (.QuicTraceLogInfo
          ("[ sys] Initialized (PageSize = %u bytes; AvailMem = %llu bytes)")
          [Sbi.PageSize, s.QuicTotalMemory])
        QuicPlatformInitialize.Error s Status

/-- The function `QuicPlatformUninitialize` (lines 175-184). -/
def QuicPlatformUninitialize (s : State) : State :=
  let s := s.call Call.QuicTlsLibraryUninitialize
  let s := s.call (.BCryptCloseAlgorithmProvider s.QuicPlatform.RngAlgorithm 0)
  let s := { s with QuicPlatform := { s.QuicPlatform with RngAlgorithm := NULL } }
  s.call (.QuicTraceLogInfo ("[ sys] Uninitialized") [])

/-- The function `QuicPlatformLogAssert` (lines 188-195); `Line` is cast to
`uint32_t`. -/
def QuicPlatformLogAssert (s : State) (File : Nat) (Line : Int) (Expr : Nat) : State :=
  s.call (.QuicTraceEvent_LibraryAssert (Line % 2 ^ 32).toNat File Expr)

/-- The function `QuicRandom` (lines 199-214): returns the status and the content
of `Buffer` after the call, next to the new state. -/
def QuicRandom (s : State) (host : GenOutcome) (BufferLen : Nat) :
    QUIC_STATUS × List Nat × State :=
  let s := s.call (.BCryptGenRandom s.QuicPlatform.RngAlgorithm BufferLen 0)
  (host.Status, host.Buffer, s)

/-- The function `QuicEtwCallback` (lines 220-247).  The argument
`MICROSOFT_MSQUIC_PROVIDER_Context` is the address of the provider context
registered by `EventRegisterMicrosoft_Quic`. -/
def QuicEtwCallback (MICROSOFT_MSQUIC_PROVIDER_Context : Nat) (s : State)
    (SourceId ControlCode Level MatchAnyKeyword MatchAllKeyword FilterData : Nat)
    (CallbackContext : Nat) : State :=
  if ControlCode = EVENT_CONTROL_CODE_ENABLE_PROVIDER
      ∨ ControlCode = EVENT_CONTROL_CODE_CAPTURE_STATE then
    if CallbackContext = MICROSOFT_MSQUIC_PROVIDER_Context then
      s.call .QuicTraceRundown
    else
      s
  else
    s

/-! ## Observations on the record of calls -/

/-- The calls made between state `s` and a later state `t`. -/
def State.CallsSince (t s : State) : List Call :=
  t.Calls.drop s.Calls.length

/-- Recogniser of `BCryptOpenAlgorithmProvider` calls. -/
def Call.isOpen : Call → Bool
  | .BCryptOpenAlgorithmProvider => true
  | _ => false

/-- Recogniser of `BCryptCloseAlgorithmProvider` calls, whatever the handle. -/
def Call.isClose : Call → Bool
  | .BCryptCloseAlgorithmProvider _ _ => true
  | _ => false

/-- Recogniser of `BCryptGenRandom` calls. -/
def Call.isGenRandom : Call → Bool
  | .BCryptGenRandom _ _ _ => true
  | _ => false

/-- Recogniser of `ZwQuerySystemInformation` calls. -/
def Call.isQuery : Call → Bool
  | .ZwQuerySystemInformation _ _ => true
  | _ => false

/-- Recogniser of `QuicTlsLibraryInitialize` calls. -/
def Call.isTlsInit : Call → Bool
  | .QuicTlsLibraryInitialize => true
  | _ => false

/-- Recogniser of `QuicTlsLibraryUninitialize` calls. -/
def Call.isTlsUninit : Call → Bool
  | Call.QuicTlsLibraryUninitialize => true
  | _ => false

/-- Recogniser of `QuicTraceRundown` calls. -/
def Call.isRundown : Call → Bool
  | .QuicTraceRundown => true
  | _ => false

/-! ## Contract of the provider open -/

/-- The open stored a non-null handle through `phAlgorithm`. -/
def OpenOutcome.YieldsHandle (o : OpenOutcome) : Prop :=
  ∃ h, o.phAlgorithm = some h ∧ h ≠ NULL

/-- A successful open yields a non-null handle: the condition asserted by
`QUIC_DBG_ASSERT(QuicPlatform.RngAlgorithm != NULL)` on line 135. -/
def OpenOutcome.Contract (o : OpenOutcome) : Prop :=
  QUIC_FAILED o.Status = false → o.YieldsHandle

/-- All three steps of an `Initialize` attempt succeed. -/
def InitOutcome.AllSucceed (host : InitOutcome) : Prop :=
  QUIC_FAILED host.Open.Status = false ∧ QUIC_FAILED host.Query.Status = false
    ∧ QUIC_FAILED host.Tls = false

/-! ## Lifecycle phase (ghost state) -/

/-- Modelled from the spec: the lifecycle phase of section 3.  The source keeps
no such variable; it is tracked next to the state of the code. -/
inductive Phase where
  | Unloaded
  | Loaded
  | Initialized
  deriving DecidableEq, Repr

/-- The state of the code together with the phase. -/
structure Lifecycle where
  phase : Phase
  state : State
  deriving DecidableEq, Repr

/-- Before `Load`: phase `Unloaded`, globals as initialised by the image. -/
def Lifecycle.initial : Lifecycle :=
  { phase := .Unloaded, state := State.initial }

/-- A lifecycle entry point together with what the host answers during it. -/
inductive Op where
  | Load (DriverObject RegistryPath PerformanceFrequency : Nat)
  | Initialize (host : InitOutcome)
  | Uninitialize
  | Unload
  deriving DecidableEq, Repr

/-- Modelled from the spec: the phase transitions of section 4.1
(`Unloaded --Load--> Loaded --Initialize(ok)--> Initialized --Uninitialize-->
Loaded --Unload--> Unloaded`, a failing `Initialize` stays in `Loaded`), each
running the corresponding function of the source.  An entry point called
outside its required phase gives `none`. -/
def Lifecycle.step (l : Lifecycle) : Op → Option Lifecycle
  | .Load DriverObject RegistryPath PerformanceFrequency =>
    if l.phase = .Unloaded then
      some { phase := .Loaded,
             state := QuicPlatformSystemLoad l.state DriverObject RegistryPath
               PerformanceFrequency }
    else none
  | .Initialize host =>
    if l.phase = .Loaded then
      let r := QuicPlatformInitialize l.state host
      some { phase := if QUIC_FAILED r.1 then .Loaded else .Initialized, state := r.2 }
    else none
  | Op.Uninitialize =>
    if l.phase = .Initialized then
      some { phase := .Loaded, state := QuicPlatformUninitialize l.state }
    else none
  | .Unload =>
    if l.phase = .Loaded then
      some { phase := .Unloaded, state := QuicPlatformSystemUnload l.state }
    else none

/-- Run a sequence of entry points, each in its required phase. -/
def Lifecycle.run (l : Lifecycle) : List Op → Option Lifecycle
  | [] => some l
  | op :: ops =>
    match l.step op with
    | some l' => l'.run ops
    | none => none

/-- The host honours the contract of the provider open during this entry point. -/
def Op.Contract : Op → Prop
  | .Initialize host => host.Open.Contract
  | _ => True

/-! ## Sample inputs -/

/-- A success status. -/
def sampleSuccess : QUIC_STATUS := { Failure := false, Reason := 0 }

/-- A failure status. -/
def sampleFailure : QUIC_STATUS := { Failure := true, Reason := 5 }

/-- A system description: 4096-byte pages, 262144 physical pages. -/
def sampleSbi : SYSTEM_BASIC_INFORMATION :=
  { Reserved := 0, TimerResolution := 156250, PageSize := 4096,
    NumberOfPhysicalPages := 262144, LowestPhysicalPageNumber := 1,
    HighestPhysicalPageNumber := 262143, AllocationGranularity := 65536,
    MinimumUserModeAddress := 65536, MaximumUserModeAddress := 140737488289791,
    ActiveProcessorsAffinityMask := 15, NumberOfProcessors := 4 }

/-- A host on which every step of `Initialize` succeeds, the open yielding
handle `h`. -/
def sampleHostOk (h : Nat) : InitOutcome :=
  { Open := { Status := sampleSuccess, phAlgorithm := some h },
    Query := { Status := sampleSuccess, SystemInformation := sampleSbi,
               ReturnLength := sizeof_SYSTEM_BASIC_INFORMATION },
    Tls := sampleSuccess }

/-- The state after `Load`, with driver object 100, registry path 200 and
performance frequency 10000000. -/
def sampleLoaded : State :=
  QuicPlatformSystemLoad State.initial 100 200 10000000

/-- The state after `Load` and a successful `Initialize` yielding handle 7. -/
def sampleInitialized : State :=
  (QuicPlatformInitialize sampleLoaded (sampleHostOk 7)).2

/-- A host whose provider open fails and stores no handle. -/
def sampleHostOpenFails : InitOutcome :=
  { sampleHostOk 7 with Open := { Status := sampleFailure, phAlgorithm := none } }

/-- A host whose provider open yields handle 7 and whose system query fails. -/
def sampleHostQueryFails : InitOutcome :=
  { sampleHostOk 7 with
    Query := { Status := sampleFailure, SystemInformation := sampleSbi, ReturnLength := 0 } }

/-- A host whose provider open yields handle 7, whose system query succeeds and
whose TLS library fails to initialise. -/
def sampleHostTlsFails : InitOutcome :=
  { sampleHostOk 7 with Tls := sampleFailure }

/-- A host on which every call reports success, the system query reporting a
returned length of 0 bytes. -/
def sampleHostShortLength : InitOutcome :=
  { sampleHostOk 7 with
    Query := { Status := sampleSuccess, SystemInformation := sampleSbi, ReturnLength := 0 } }

/-- A host on which every step succeeds, the system query returning the largest
32-bit values for the page size and the number of physical pages. -/
def sampleHostLargest : InitOutcome :=
  { sampleHostOk 7 with
    Query := { Status := sampleSuccess,
               SystemInformation :=
                 { sampleSbi with PageSize := 4294967295,
                                  NumberOfPhysicalPages := 4294967295 },
               ReturnLength := sizeof_SYSTEM_BASIC_INFORMATION } }

/-- The full cycle: `Load`, an Initialize on which every step succeeds with
handle 7, `Uninitialize`, `Unload`. -/
def sampleCycle : List Op :=
  [.Load 100 200 10000000, .Initialize (sampleHostOk 7), Op.Uninitialize, .Unload]

/-- The lifecycle state at the end of `sampleCycle`. -/
def sampleUnloaded : Lifecycle :=
  { phase := .Unloaded,
    state := QuicPlatformSystemUnload ( QuicPlatformUninitialize sampleInitialized) }

/-! ## Lemmas on `QuicPlatformInitialize` -/

/-- The code after `Error:` returns the status it is given. -/
theorem Error_fst (s : State) (Status : QUIC_STATUS) :
    (QuicPlatformInitialize.Error s Status).1 = Status := by
  unfold QuicPlatformInitialize.Error
  split_ifs <;> rfl

/-- On a success status the code after `Error:` changes nothing. -/
theorem Error_of_success (s : State) (Status : QUIC_STATUS)
    (h : QUIC_FAILED Status = false) :
    QuicPlatformInitialize.Error s Status = (Status, s) := by
  simp [QuicPlatformInitialize.Error, h]

/-- On a failing status the code after `Error:` closes the provider when one is
held and leaves the handle null. -/
theorem Error_of_failure (s : State) (Status : QUIC_STATUS)
    (h : QUIC_FAILED Status = true) :
    QuicPlatformInitialize.Error s Status =
      (Status,
       { s with
         QuicPlatform := { s.QuicPlatform with RngAlgorithm := NULL }
         Calls := s.Calls ++
           (if s.QuicPlatform.RngAlgorithm ≠ NULL then
              [Call.BCryptCloseAlgorithmProvider s.QuicPlatform.RngAlgorithm 0]
            else []) }) := by
  unfold QuicPlatformInitialize.Error
  by_cases hn : s.QuicPlatform.RngAlgorithm = NULL
  · obtain ⟨f, m, ⟨d, r⟩, c⟩ := s
    simp only at hn
    subst hn
    simp [h]
  · simp [h, hn, State.call]

/-- The status returned is that of the first failing step, or that of the TLS
initialisation when no step fails. -/
theorem initialize_status (s : State) (host : InitOutcome) :
    (QuicPlatformInitialize s host).1 =
      if QUIC_FAILED host.Open.Status then host.Open.Status
      else if QUIC_FAILED host.Query.Status then host.Query.Status
      else host.Tls := by
  unfold QuicPlatformInitialize
  simp only [BCryptOpenAlgorithmProvider, ZwQuerySystemInformation]
  split_ifs <;> simp [Error_fst]

/-- A success status is returned only when all three steps succeeded. -/
theorem initialize_allSucceed (s : State) (host : InitOutcome)
    (hOk : QUIC_FAILED (QuicPlatformInitialize s host).1 = false) : host.AllSucceed := by
  rw [initialize_status] at hOk
  unfold InitOutcome.AllSucceed
  split_ifs at hOk with h1 h2
  · simp [h1] at hOk
  · simp [h2] at hOk
  · simp at h1 h2
    exact ⟨h1, h2, hOk⟩

/-- The result of `QuicPlatformInitialize` when all three steps succeed. -/
theorem initialize_of_allSucceed (s : State) (host : InitOutcome) (h : host.AllSucceed) :
    QuicPlatformInitialize s host =
      (host.Tls,
       { s with
         QuicTotalMemory :=
           ((host.Query.SystemInformation.NumberOfPhysicalPages % 2 ^ 64)
             * (host.Query.SystemInformation.PageSize % 2 ^ 64)) % 2 ^ 64
         QuicPlatform :=
           { s.QuicPlatform with
             RngAlgorithm := host.Open.phAlgorithm.getD s.QuicPlatform.RngAlgorithm }
         Calls := s.Calls ++
           [.BCryptOpenAlgorithmProvider,
            .ZwQuerySystemInformation sizeof_SYSTEM_BASIC_INFORMATION NULL,
            .QuicTlsLibraryInitialize,
            .QuicTraceLogInfo
              ("[ sys] Initialized (PageSize = %u bytes; AvailMem = %llu bytes)")
              [host.Query.SystemInformation.PageSize,
               ((host.Query.SystemInformation.NumberOfPhysicalPages % 2 ^ 64)
                 * (host.Query.SystemInformation.PageSize % 2 ^ 64)) % 2 ^ 64]] }) := by
  obtain ⟨h1, h2, h3⟩ := h
  simp [QuicPlatformInitialize, BCryptOpenAlgorithmProvider, ZwQuerySystemInformation,
    State.call, h1, h2, h3, Error_of_success]

/-- The result of `QuicPlatformInitialize` when the provider open fails. -/
theorem initialize_of_open_failed (s : State) (host : InitOutcome)
    (h1 : QUIC_FAILED host.Open.Status = true) :
    QuicPlatformInitialize s host =
      (host.Open.Status,
       { s with
         QuicPlatform := { s.QuicPlatform with RngAlgorithm := NULL }
         Calls := s.Calls ++
           [.BCryptOpenAlgorithmProvider,
            .QuicTraceEvent_LibraryErrorStatus host.Open.Status
              ("BCryptOpenAlgorithmProvider (RNG)")] ++
           (if host.Open.phAlgorithm.getD s.QuicPlatform.RngAlgorithm ≠ NULL then
              [Call.BCryptCloseAlgorithmProvider
                (host.Open.phAlgorithm.getD s.QuicPlatform.RngAlgorithm) 0]
            else []) }) := by
  simp [QuicPlatformInitialize, BCryptOpenAlgorithmProvider, State.call, h1,
    Error_of_failure]

/-- The result of `QuicPlatformInitialize` when the provider open succeeds and
the system query fails. -/
theorem initialize_of_query_failed (s : State) (host : InitOutcome)
    (h1 : QUIC_FAILED host.Open.Status = false)
    (h2 : QUIC_FAILED host.Query.Status = true) :
    QuicPlatformInitialize s host =
      (host.Query.Status,
       { s with
         QuicPlatform := { s.QuicPlatform with RngAlgorithm := NULL }
         Calls := s.Calls ++
           [.BCryptOpenAlgorithmProvider,
            .ZwQuerySystemInformation sizeof_SYSTEM_BASIC_INFORMATION NULL,
            .QuicTraceEvent_LibraryErrorStatus host.Query.Status
              ("ZwQuerySystemInformation(SystemBasicInformation)")] ++
           (if host.Open.phAlgorithm.getD s.QuicPlatform.RngAlgorithm ≠ NULL then
              [Call.BCryptCloseAlgorithmProvider
                (host.Open.phAlgorithm.getD s.QuicPlatform.RngAlgorithm) 0]
            else []) }) := by
  simp [QuicPlatformInitialize, BCryptOpenAlgorithmProvider, ZwQuerySystemInformation,
    State.call, h1, h2, Error_of_failure]

/-- The result of `QuicPlatformInitialize` when the provider open and the system
query succeed and the TLS initialisation fails. -/
theorem initialize_of_tls_failed (s : State) (host : InitOutcome)
    (h1 : QUIC_FAILED host.Open.Status = false)
    (h2 : QUIC_FAILED host.Query.Status = false)
    (h3 : QUIC_FAILED host.Tls = true) :
    QuicPlatformInitialize s host =
      (host.Tls,
       { s with
         QuicPlatform := { s.QuicPlatform with RngAlgorithm := NULL }
         Calls := s.Calls ++
           [.BCryptOpenAlgorithmProvider,
            .ZwQuerySystemInformation sizeof_SYSTEM_BASIC_INFORMATION NULL,
            .QuicTlsLibraryInitialize,
            .QuicTraceEvent_LibraryErrorStatus host.Tls ("QuicTlsLibraryInitialize")] ++
           (if host.Open.phAlgorithm.getD s.QuicPlatform.RngAlgorithm ≠ NULL then
              [Call.BCryptCloseAlgorithmProvider
                (host.Open.phAlgorithm.getD s.QuicPlatform.RngAlgorithm) 0]
            else []) }) := by
  simp [QuicPlatformInitialize, BCryptOpenAlgorithmProvider, ZwQuerySystemInformation,
    State.call, h1, h2, h3, Error_of_failure]

/-- A failing `QuicPlatformInitialize` leaves the handle null. -/
theorem initialize_failure_handle (s : State) (host : InitOutcome)
    (hFail : QUIC_FAILED (QuicPlatformInitialize s host).1 = true) :
    (QuicPlatformInitialize s host).2.QuicPlatform.RngAlgorithm = NULL := by
  cases h1 : QUIC_FAILED host.Open.Status
  · cases h2 : QUIC_FAILED host.Query.Status
    · cases h3 : QUIC_FAILED host.Tls
      · rw [initialize_of_allSucceed s host ⟨h1, h2, h3⟩] at hFail
        simp [h3] at hFail
      · rw [initialize_of_tls_failed s host h1 h2 h3]
    · rw [initialize_of_query_failed s host h1 h2]
  · rw [initialize_of_open_failed s host h1]

/-! ## Initialize: success and rollback -/

/-- C1: whatever the host answers, when `QuicPlatformInitialize` is called in
phase `Loaded`, the open honours its contract (success yields a non-null handle)
and the returned status is a success, then `QuicPlatform.RngAlgorithm` is
non-null afterwards, the phase is `Initialized`, all three steps succeeded, the
calls made are exactly the open, the query, the TLS initialisation and the
summary event, and no provider close is among them. -/
theorem initialize_success_holds_provider (s : State) (host : InitOutcome)
    (hContract : host.Open.Contract)
    (hOk : QUIC_FAILED (QuicPlatformInitialize s host).1 = false) :
    (QuicPlatformInitialize s host).2.QuicPlatform.RngAlgorithm ≠ NULL
    ∧ Lifecycle.step { phase := .Loaded, state := s } (.Initialize host)
        = some { phase := .Initialized, state := (QuicPlatformInitialize s host).2 }
    ∧ host.AllSucceed
    ∧ (QuicPlatformInitialize s host).2.Calls = s.Calls ++
        [.BCryptOpenAlgorithmProvider,
         .ZwQuerySystemInformation sizeof_SYSTEM_BASIC_INFORMATION NULL,
         .QuicTlsLibraryInitialize,
         .QuicTraceLogInfo
           ("[ sys] Initialized (PageSize = %u bytes; AvailMem = %llu bytes)")
           [host.Query.SystemInformation.PageSize,
            (QuicPlatformInitialize s host).2.QuicTotalMemory]]
    ∧ ((QuicPlatformInitialize s host).2.CallsSince s).countP Call.isClose = 0 := by
  have hAll := initialize_allSucceed s host hOk
  obtain ⟨h, hh, hne⟩ := hContract hAll.1
  refine ⟨?_, ?_, hAll, ?_, ?_⟩
  · rw [initialize_of_allSucceed s host hAll]
    simpa [hh] using hne
  · simp [Lifecycle.step, hOk]
  · rw [initialize_of_allSucceed s host hAll]
  · rw [initialize_of_allSucceed s host hAll]
    simp [State.CallsSince, Call.isClose]

/-- Witness of C1: after `Load`, on a host where every step succeeds and the
open yields handle 7. -/
theorem initialize_success_holds_provider_witness :
    sampleLoaded.QuicPlatform.RngAlgorithm = NULL
    ∧ (sampleHostOk 7).Open.Contract
    ∧ QUIC_FAILED (QuicPlatformInitialize sampleLoaded (sampleHostOk 7)).1 = false
    ∧ (QuicPlatformInitialize sampleLoaded (sampleHostOk 7)).2.QuicPlatform.RngAlgorithm = 7
    ∧ (QuicPlatformInitialize sampleLoaded (sampleHostOk 7)).2.QuicPlatform.RngAlgorithm
        ≠ NULL :=
  ⟨by decide, fun _ => ⟨7, rfl, by decide⟩, by decide, by decide,
    (initialize_success_holds_provider sampleLoaded (sampleHostOk 7)
      (fun _ => ⟨7, rfl, by decide⟩) (by decide)).1⟩

/-- C2: when the provider open succeeds, yielding the non-null handle `h`, and
the system-information query fails, `QuicPlatformInitialize` returns the failing
status of the query, the calls made are the open, the query, the error event and
one close of `h` (the only close), the handle is null afterwards and the phase
stays `Loaded`. -/
theorem initialize_query_failure_rolls_back (s : State) (host : InitOutcome) (h : Nat)
    (hOpen : QUIC_FAILED host.Open.Status = false)
    (hHandle : host.Open.phAlgorithm = some h) (hne : h ≠ NULL)
    (hQuery : QUIC_FAILED host.Query.Status = true) :
    QUIC_FAILED (QuicPlatformInitialize s host).1 = true
    ∧ (QuicPlatformInitialize s host).1 = host.Query.Status
    ∧ (QuicPlatformInitialize s host).2.Calls = s.Calls ++
        [.BCryptOpenAlgorithmProvider,
         .ZwQuerySystemInformation sizeof_SYSTEM_BASIC_INFORMATION NULL,
         .QuicTraceEvent_LibraryErrorStatus host.Query.Status
           ("ZwQuerySystemInformation(SystemBasicInformation)"),
         .BCryptCloseAlgorithmProvider h 0]
    ∧ ((QuicPlatformInitialize s host).2.CallsSince s).count
        (.BCryptCloseAlgorithmProvider h 0) = 1
    ∧ ((QuicPlatformInitialize s host).2.CallsSince s).countP Call.isClose = 1
    ∧ (QuicPlatformInitialize s host).2.QuicPlatform.RngAlgorithm = NULL
    ∧ Lifecycle.step { phase := .Loaded, state := s } (.Initialize host)
        = some { phase := .Loaded, state := (QuicPlatformInitialize s host).2 } := by
  have hr := initialize_of_query_failed s host hOpen hQuery
  simp only [hHandle, Option.getD_some, hne, ne_eq, not_false_eq_true, if_true] at hr
  refine ⟨?_, ?_, ?_, ?_, ?_, ?_, ?_⟩
  · rw [hr]; exact hQuery
  · rw [hr]
  · rw [hr]; simp
  · rw [hr]; simp [State.CallsSince]
  · rw [hr]; simp [State.CallsSince, Call.isClose]
  · rw [hr]
  · simp only [Lifecycle.step, if_true]
    rw [hr]; simp [hQuery]

/-- Witness of C2: after `Load`, the open yields handle 7 and the query fails. -/
theorem initialize_query_failure_rolls_back_witness :
    QUIC_FAILED sampleHostQueryFails.Open.Status = false
    ∧ QUIC_FAILED sampleHostQueryFails.Query.Status = true
    ∧ QUIC_FAILED (QuicPlatformInitialize sampleLoaded sampleHostQueryFails).1 = true
    ∧ ((QuicPlatformInitialize sampleLoaded sampleHostQueryFails).2.CallsSince
        sampleLoaded).countP Call.isClose = 1
    ∧ (QuicPlatformInitialize sampleLoaded sampleHostQueryFails).2.QuicPlatform.RngAlgorithm
        = NULL :=
  have w := initialize_query_failure_rolls_back sampleLoaded sampleHostQueryFails 7
    (by decide) rfl (by decide) (by decide)
  ⟨by decide, by decide, w.1, w.2.2.2.2.1, w.2.2.2.2.2.1⟩

/-- C3: when the provider open succeeds, yielding the non-null handle `h`, the
system-information query succeeds and `QuicTlsLibraryInitialize` fails,
`QuicPlatformInitialize` returns the failing status of the TLS library, the
calls made are the open, the query, the TLS initialisation, the error event and
one close of `h` (the only close), `QuicTlsLibraryUninitialize` is not called,
the handle is null afterwards and the phase stays `Loaded`. -/
theorem initialize_tls_failure_rolls_back (s : State) (host : InitOutcome) (h : Nat)
    (hOpen : QUIC_FAILED host.Open.Status = false)
    (hHandle : host.Open.phAlgorithm = some h) (hne : h ≠ NULL)
    (hQuery : QUIC_FAILED host.Query.Status = false)
    (hTls : QUIC_FAILED host.Tls = true) :
    QUIC_FAILED (QuicPlatformInitialize s host).1 = true
    ∧ (QuicPlatformInitialize s host).1 = host.Tls
    ∧ (QuicPlatformInitialize s host).2.Calls = s.Calls ++
        [.BCryptOpenAlgorithmProvider,
         .ZwQuerySystemInformation sizeof_SYSTEM_BASIC_INFORMATION NULL,
         .QuicTlsLibraryInitialize,
         .QuicTraceEvent_LibraryErrorStatus host.Tls ("QuicTlsLibraryInitialize"),
         .BCryptCloseAlgorithmProvider h 0]
    ∧ ((QuicPlatformInitialize s host).2.CallsSince s).count
        (.BCryptCloseAlgorithmProvider h 0) = 1
    ∧ ((QuicPlatformInitialize s host).2.CallsSince s).countP Call.isClose = 1
    ∧ ((QuicPlatformInitialize s host).2.CallsSince s).countP Call.isTlsUninit = 0
    ∧ (QuicPlatformInitialize s host).2.QuicPlatform.RngAlgorithm = NULL
    ∧ Lifecycle.step { phase := .Loaded, state := s } (.Initialize host)
        = some { phase := .Loaded, state := (QuicPlatformInitialize s host).2 } := by
  have hr := initialize_of_tls_failed s host hOpen hQuery hTls
  simp only [hHandle, Option.getD_some, hne, ne_eq, not_false_eq_true, if_true] at hr
  refine ⟨?_, ?_, ?_, ?_, ?_, ?_, ?_, ?_⟩
  · rw [hr]; exact hTls
  · rw [hr]
  · rw [hr]; simp
  · rw [hr]; simp [State.CallsSince]
  · rw [hr]; simp [State.CallsSince, Call.isClose]
  · rw [hr]; simp [State.CallsSince, Call.isTlsUninit]
  · rw [hr]
  · simp only [Lifecycle.step, if_true]
    rw [hr]; simp [hTls]

/-- Witness of C3: after `Load`, the open yields handle 7, the query succeeds
and the TLS initialisation fails. -/
theorem initialize_tls_failure_rolls_back_witness :
    QUIC_FAILED sampleHostTlsFails.Open.Status = false
    ∧ QUIC_FAILED sampleHostTlsFails.Query.Status = false
    ∧ QUIC_FAILED sampleHostTlsFails.Tls = true
    ∧ (QuicPlatformInitialize sampleLoaded sampleHostTlsFails).1 = sampleFailure
    ∧ ((QuicPlatformInitialize sampleLoaded sampleHostTlsFails).2.CallsSince
        sampleLoaded).countP Call.isClose = 1
    ∧ (QuicPlatformInitialize sampleLoaded sampleHostTlsFails).2.QuicPlatform.RngAlgorithm
        = NULL :=
  have w := initialize_tls_failure_rolls_back sampleLoaded sampleHostTlsFails 7
    (by decide) rfl (by decide) (by decide) (by decide)
  ⟨by decide, by decide, by decide, w.2.1, w.2.2.2.2.1, w.2.2.2.2.2.2.1⟩

/-- C9: when `QuicPlatformInitialize` starts with a null handle and the provider
open fails without yielding a handle, the status returned is that of the open,
the only calls made are the open and the error event (no system query, no TLS
initialisation, no provider close), and the state is otherwise unchanged: in
particular `QuicTotalMemory` keeps its value, the handle is still null and the
phase stays `Loaded`. -/
theorem initialize_open_failure_stops (s : State) (host : InitOutcome)
    (hNull : s.QuicPlatform.RngAlgorithm = NULL)
    (hOpen : QUIC_FAILED host.Open.Status = true)
    (hNoHandle : ¬ host.Open.YieldsHandle) :
    (QuicPlatformInitialize s host).1 = host.Open.Status
    ∧ (QuicPlatformInitialize s host).2 =
        { s with Calls := s.Calls ++
          [.BCryptOpenAlgorithmProvider,
           .QuicTraceEvent_LibraryErrorStatus host.Open.Status
             ("BCryptOpenAlgorithmProvider (RNG)")] }
    ∧ ((QuicPlatformInitialize s host).2.CallsSince s).countP Call.isQuery = 0
    ∧ ((QuicPlatformInitialize s host).2.CallsSince s).countP Call.isTlsInit = 0
    ∧ ((QuicPlatformInitialize s host).2.CallsSince s).countP Call.isClose = 0
    ∧ (QuicPlatformInitialize s host).2.QuicTotalMemory = s.QuicTotalMemory
    ∧ (QuicPlatformInitialize s host).2.QuicPlatform.RngAlgorithm = NULL
    ∧ Lifecycle.step { phase := .Loaded, state := s } (.Initialize host)
        = some { phase := .Loaded, state := (QuicPlatformInitialize s host).2 } := by
  have hGet : host.Open.phAlgorithm.getD s.QuicPlatform.RngAlgorithm = NULL := by
    cases hp : host.Open.phAlgorithm with
    | none => simpa using hNull
    | some h =>
      by_contra hc
      exact hNoHandle ⟨h, hp, by simpa using hc⟩
  have hr := initialize_of_open_failed s host hOpen
  simp only [hGet, ne_eq, not_true_eq_false, if_false, List.append_nil] at hr
  refine ⟨?_, ?_, ?_, ?_, ?_, ?_, ?_, ?_⟩
  · rw [hr]
  · rw [hr]
    obtain ⟨f, m, ⟨d, r⟩, c⟩ := s
    simp only at hNull
    subst hNull
    rfl
  · rw [hr]; simp [State.CallsSince, Call.isQuery]
  · rw [hr]; simp [State.CallsSince, Call.isTlsInit]
  · rw [hr]; simp [State.CallsSince, Call.isClose]
  · rw [hr]
  · rw [hr]
  · simp only [Lifecycle.step, if_true]
    rw [hr]; simp [hOpen]

/-- Witness of C9: after `Load`, the open fails and stores no handle. -/
theorem initialize_open_failure_stops_witness :
    sampleLoaded.QuicPlatform.RngAlgorithm = NULL
    ∧ QUIC_FAILED sampleHostOpenFails.Open.Status = true
    ∧ ¬ sampleHostOpenFails.Open.YieldsHandle
    ∧ (QuicPlatformInitialize sampleLoaded sampleHostOpenFails).1 = sampleFailure
    ∧ ((QuicPlatformInitialize sampleLoaded sampleHostOpenFails).2.CallsSince
        sampleLoaded).countP Call.isQuery = 0
    ∧ (QuicPlatformInitialize sampleLoaded sampleHostOpenFails).2.QuicPlatform.RngAlgorithm
        = NULL :=
  have hn : ¬ sampleHostOpenFails.Open.YieldsHandle := fun ⟨_, hh, _⟩ => by
    simp [sampleHostOpenFails] at hh
  have w := initialize_open_failure_stops sampleLoaded sampleHostOpenFails
    (by decide) (by decide) hn
  ⟨by decide, by decide, hn, w.1, w.2.2.1, w.2.2.2.2.2.2.1⟩

/-! ## Total memory -/

/-- C4: after a successful `QuicPlatformInitialize`, when the query returned
32-bit values for `NumberOfPhysicalPages` and `PageSize`, `QuicTotalMemory` is
their product as natural numbers: the 64-bit multiplication does not wrap. -/
theorem initialize_total_memory_exact (s : State) (host : InitOutcome)
    (hULONG : host.Query.SystemInformation.IsULONG)
    (hOk : QUIC_FAILED (QuicPlatformInitialize s host).1 = false) :
    (QuicPlatformInitialize s host).2.QuicTotalMemory =
      host.Query.SystemInformation.NumberOfPhysicalPages
        * host.Query.SystemInformation.PageSize := by
  obtain ⟨hs, hp⟩ := hULONG
  rw [initialize_of_allSucceed s host (initialize_allSucceed s host hOk)]
  have h1 : host.Query.SystemInformation.NumberOfPhysicalPages < 2 ^ 64 :=
    lt_trans hp (by norm_num)
  have h2 : host.Query.SystemInformation.PageSize < 2 ^ 64 := lt_trans hs (by norm_num)
  have h3 : host.Query.SystemInformation.NumberOfPhysicalPages
      * host.Query.SystemInformation.PageSize < 2 ^ 64 :=
    lt_of_lt_of_le (Nat.mul_lt_mul'' hp hs) (by norm_num)
  simp only [Nat.mod_eq_of_lt h1, Nat.mod_eq_of_lt h2, Nat.mod_eq_of_lt h3]

/-- Witness of C4: the largest 32-bit values, `4294967295` pages of `4294967295`
bytes. -/
theorem initialize_total_memory_exact_witness :
    sampleHostLargest.Query.SystemInformation.IsULONG
    ∧ QUIC_FAILED (QuicPlatformInitialize sampleLoaded sampleHostLargest).1 = false
    ∧ (QuicPlatformInitialize sampleLoaded sampleHostLargest).2.QuicTotalMemory
        = 4294967295 * 4294967295
    ∧ (QuicPlatformInitialize sampleLoaded sampleHostLargest).2.QuicTotalMemory
        = 18446744065119617025 :=
  ⟨⟨by decide, by decide⟩, by decide,
    initialize_total_memory_exact sampleLoaded sampleHostLargest
      ⟨by decide, by decide⟩ (by decide),
    by decide⟩

/-! ## Random numbers -/

/-- C6: for every buffer length and every answer of the provider, `QuicRandom`
makes exactly one call, `BCryptGenRandom` with the handle currently held, the
caller's length and flags 0, returns the status and the buffer of that call as
they are, and changes nothing else in the state: the handle is the same. -/
theorem quicRandom_passes_through (s : State) (host : GenOutcome) (BufferLen : Nat) :
    (QuicRandom s host BufferLen).1 = host.Status
    ∧ (QuicRandom s host BufferLen).2.1 = host.Buffer
    ∧ (QuicRandom s host BufferLen).2.2 =
        { s with Calls := s.Calls ++
          [.BCryptGenRandom s.QuicPlatform.RngAlgorithm BufferLen 0] }
    ∧ ((QuicRandom s host BufferLen).2.2.CallsSince s).length = 1
    ∧ ((QuicRandom s host BufferLen).2.2.CallsSince s).countP Call.isGenRandom = 1
    ∧ (QuicRandom s host BufferLen).2.2.QuicPlatform.RngAlgorithm
        = s.QuicPlatform.RngAlgorithm := by
  simp [QuicRandom, State.call, State.CallsSince, Call.isGenRandom]

/-! ## Tracing control callback -/

/-- C5: for every control code and callback context, `QuicEtwCallback` makes
exactly one call of `QuicTraceRundown` when the control code is
`EVENT_CONTROL_CODE_ENABLE_PROVIDER` or `EVENT_CONTROL_CODE_CAPTURE_STATE` and
the context is the registered provider context, and otherwise leaves the state
as it is (no call at all); the disable code is one of the latter cases; the
result is the same for any other `SourceId`, `Level`, `MatchAnyKeyword`,
`MatchAllKeyword` and `FilterData`. -/
theorem quicEtwCallback_rundown (ProviderContext : Nat) (s : State)
    (SourceId ControlCode Level MatchAnyKeyword MatchAllKeyword FilterData : Nat)
    (CallbackContext : Nat) :
    (QuicEtwCallback ProviderContext s SourceId ControlCode Level MatchAnyKeyword
        MatchAllKeyword FilterData CallbackContext =
      if (ControlCode = EVENT_CONTROL_CODE_ENABLE_PROVIDER
            ∨ ControlCode = EVENT_CONTROL_CODE_CAPTURE_STATE)
          ∧ CallbackContext = ProviderContext
      then { s with Calls := s.Calls ++ [.QuicTraceRundown] } else s)
    ∧ (((QuicEtwCallback ProviderContext s SourceId ControlCode Level MatchAnyKeyword
        MatchAllKeyword FilterData CallbackContext).CallsSince s).countP Call.isRundown =
      if (ControlCode = EVENT_CONTROL_CODE_ENABLE_PROVIDER
            ∨ ControlCode = EVENT_CONTROL_CODE_CAPTURE_STATE)
          ∧ CallbackContext = ProviderContext
      then 1 else 0)
    ∧ QuicEtwCallback ProviderContext s SourceId EVENT_CONTROL_CODE_DISABLE_PROVIDER Level
        MatchAnyKeyword MatchAllKeyword FilterData CallbackContext = s
    ∧ ∀ SourceId2 Level2 MatchAnyKeyword2 MatchAllKeyword2 FilterData2 : Nat,
        QuicEtwCallback ProviderContext s SourceId2 ControlCode Level2 MatchAnyKeyword2
          MatchAllKeyword2 FilterData2 CallbackContext
        = QuicEtwCallback ProviderContext s SourceId ControlCode Level MatchAnyKeyword
          MatchAllKeyword FilterData CallbackContext := by
  refine ⟨?_, ?_, ?_, ?_⟩
  · unfold QuicEtwCallback
    split_ifs <;> simp_all [State.call]
  · unfold QuicEtwCallback
    split_ifs <;> simp_all [State.call, State.CallsSince, Call.isRundown]
  · simp [QuicEtwCallback, EVENT_CONTROL_CODE_DISABLE_PROVIDER,
      EVENT_CONTROL_CODE_ENABLE_PROVIDER, EVENT_CONTROL_CODE_CAPTURE_STATE]
  · intros
    rfl

/-! ## A second Initialize -/

/-- The first call made by `QuicPlatformInitialize` is the provider open, in
every state and whatever the host answers. -/
theorem initialize_opens_first (s : State) (host : InitOutcome) :
    ((QuicPlatformInitialize s host).2.CallsSince s).head?
      = some .BCryptOpenAlgorithmProvider := by
  cases h1 : QUIC_FAILED host.Open.Status
  · cases h2 : QUIC_FAILED host.Query.Status
    · cases h3 : QUIC_FAILED host.Tls
      · rw [initialize_of_allSucceed s host ⟨h1, h2, h3⟩]
        simp [State.CallsSince]
      · rw [initialize_of_tls_failed s host h1 h2 h3]
        simp [State.CallsSince]
    · rw [initialize_of_query_failed s host h1 h2]
      simp [State.CallsSince]
  · rw [initialize_of_open_failed s host h1]
    simp [State.CallsSince]

/-- C7, as the code has it: a call of `QuicPlatformInitialize` made while a
provider is held (non-null handle) is not rejected.  The provider open is called
again as the first step, and when the three steps succeed, the open storing the
handle `h`, the status returned is the success status of the TLS initialisation,
the handle held is replaced by `h`, and the calls made are those of a first
successful Initialize, with no close of the provider held before. -/
theorem initialize_while_initialized_reopens (s : State) (host : InitOutcome) (h : Nat)
    (hHeld : s.QuicPlatform.RngAlgorithm ≠ NULL)
    (hAll : host.AllSucceed)
    (hHandle : host.Open.phAlgorithm = some h) :
    ((QuicPlatformInitialize s host).2.CallsSince s).head?
      = some .BCryptOpenAlgorithmProvider
    ∧ (QuicPlatformInitialize s host).1 = host.Tls
    ∧ QUIC_FAILED (QuicPlatformInitialize s host).1 = false
    ∧ (QuicPlatformInitialize s host).2.QuicPlatform.RngAlgorithm = h
    ∧ (QuicPlatformInitialize s host).2.Calls = s.Calls ++
        [.BCryptOpenAlgorithmProvider,
         .ZwQuerySystemInformation sizeof_SYSTEM_BASIC_INFORMATION NULL,
         .QuicTlsLibraryInitialize,
         .QuicTraceLogInfo
           ("[ sys] Initialized (PageSize = %u bytes; AvailMem = %llu bytes)")
           [host.Query.SystemInformation.PageSize,
            (QuicPlatformInitialize s host).2.QuicTotalMemory]]
    ∧ ((QuicPlatformInitialize s host).2.CallsSince s).countP Call.isClose = 0 := by
  have _ := hHeld
  refine ⟨initialize_opens_first s host, ?_, ?_, ?_, ?_, ?_⟩
  · rw [initialize_of_allSucceed s host hAll]
  · rw [initialize_of_allSucceed s host hAll]
    exact hAll.2.2
  · rw [initialize_of_allSucceed s host hAll]
    simp [hHandle]
  · rw [initialize_of_allSucceed s host hAll]
  · rw [initialize_of_allSucceed s host hAll]
    simp [State.CallsSince, Call.isClose]

/-- Witness of the amended C7: the state after `Load` and a successful
Initialize (handle 7), and a host on which every step succeeds again, the open
yielding handle 9. -/
theorem initialize_while_initialized_reopens_witness :
    sampleInitialized.QuicPlatform.RngAlgorithm ≠ NULL
    ∧ QUIC_FAILED (QuicPlatformInitialize sampleInitialized (sampleHostOk 9)).1 = false
    ∧ (QuicPlatformInitialize sampleInitialized (sampleHostOk 9)).2.QuicPlatform.RngAlgorithm
        = 9 :=
  have w := initialize_while_initialized_reopens sampleInitialized (sampleHostOk 9) 9
    (by decide) ⟨by decide, by decide, by decide⟩ rfl
  ⟨by decide, w.2.2.1, w.2.2.2.1⟩

/-- C7 fails on the code: `Load` then a successful Initialize reach phase
`Initialized` with handle 7; a second `QuicPlatformInitialize` there, on a host
where every step succeeds, returns a success status, calls the provider open
once more, and leaves a different state, holding handle 9. -/
theorem second_initialize_not_rejected :
    Lifecycle.run Lifecycle.initial
        [.Load 100 200 10000000, .Initialize (sampleHostOk 7)]
      = some { phase := .Initialized, state := sampleInitialized }
    ∧ sampleInitialized.QuicPlatform.RngAlgorithm = 7
    ∧ QUIC_FAILED (QuicPlatformInitialize sampleInitialized (sampleHostOk 9)).1 = false
    ∧ ((QuicPlatformInitialize sampleInitialized (sampleHostOk 9)).2.CallsSince
        sampleInitialized).countP Call.isOpen = 1
    ∧ (QuicPlatformInitialize sampleInitialized (sampleHostOk 9)).2.QuicPlatform.RngAlgorithm
        = 9
    ∧ (QuicPlatformInitialize sampleInitialized (sampleHostOk 9)).2 ≠ sampleInitialized := by
  decide

/-! ## The system query inside Initialize -/

/-- C8, as the code has it: once the provider open has succeeded,
`QuicPlatformInitialize` issues exactly one system query, with the size of
`SYSTEM_BASIC_INFORMATION` as buffer length and `NULL` for the returned length;
when that query returns a failing status the attempt fails with that status; the
length the host would report is not read, so the result is the same whatever
that length is. -/
theorem initialize_query_step (s : State) (host : InitOutcome)
    (hOpen : QUIC_FAILED host.Open.Status = false) :
    ((QuicPlatformInitialize s host).2.CallsSince s).countP Call.isQuery = 1
    ∧ ((QuicPlatformInitialize s host).2.CallsSince s).count
        (.ZwQuerySystemInformation sizeof_SYSTEM_BASIC_INFORMATION NULL) = 1
    ∧ (QUIC_FAILED host.Query.Status = true →
        QUIC_FAILED (QuicPlatformInitialize s host).1 = true
        ∧ (QuicPlatformInitialize s host).1 = host.Query.Status)
    ∧ ∀ ReturnLength : Nat,
        QuicPlatformInitialize s
          { host with Query := { host.Query with ReturnLength := ReturnLength } }
        = QuicPlatformInitialize s host := by
  refine ⟨?_, ?_, ?_, ?_⟩
  · cases h2 : QUIC_FAILED host.Query.Status
    · cases h3 : QUIC_FAILED host.Tls
      · rw [initialize_of_allSucceed s host ⟨hOpen, h2, h3⟩]
        simp [State.CallsSince, Call.isQuery]
      · rw [initialize_of_tls_failed s host hOpen h2 h3]
        split_ifs <;> simp [State.CallsSince, Call.isQuery]
    · rw [initialize_of_query_failed s host hOpen h2]
      split_ifs <;> simp [State.CallsSince, Call.isQuery]
  · cases h2 : QUIC_FAILED host.Query.Status
    · cases h3 : QUIC_FAILED host.Tls
      · rw [initialize_of_allSucceed s host ⟨hOpen, h2, h3⟩]
        simp [State.CallsSince]
      · rw [initialize_of_tls_failed s host hOpen h2 h3]
        split_ifs <;> simp [State.CallsSince]
    · rw [initialize_of_query_failed s host hOpen h2]
      split_ifs <;> simp [State.CallsSince]
  · intro h2
    rw [initialize_of_query_failed s host hOpen h2]
    exact ⟨h2, rfl⟩
  · intro n
    rfl

/-- Witness of the amended C8: after `Load`, the open yields handle 7 and the
query fails. -/
theorem initialize_query_step_witness :
    QUIC_FAILED sampleHostQueryFails.Open.Status = false
    ∧ ((QuicPlatformInitialize sampleLoaded sampleHostQueryFails).2.CallsSince
        sampleLoaded).countP Call.isQuery = 1
    ∧ QUIC_FAILED (QuicPlatformInitialize sampleLoaded sampleHostQueryFails).1 = true :=
  have w := initialize_query_step sampleLoaded sampleHostQueryFails (by decide)
  ⟨by decide, w.1, (w.2.2.1 (by decide)).1⟩

/-- C8 fails on the code: the host reports success for the system query with a
returned length of 0 bytes, which is not the size of `SYSTEM_BASIC_INFORMATION`,
and `QuicPlatformInitialize` returns a success status, holding the provider. -/
theorem initialize_accepts_unexpected_length :
    QUIC_FAILED sampleHostShortLength.Query.Status = false
    ∧ sampleHostShortLength.Query.ReturnLength ≠ sizeof_SYSTEM_BASIC_INFORMATION
    ∧ QUIC_FAILED (QuicPlatformInitialize sampleLoaded sampleHostShortLength).1 = false
    ∧ (QuicPlatformInitialize sampleLoaded sampleHostShortLength).2.QuicPlatform.RngAlgorithm
        = 7
    ∧ Lifecycle.step { phase := .Loaded, state := sampleLoaded }
        (.Initialize sampleHostShortLength)
      = some { phase := .Initialized,
               state := (QuicPlatformInitialize sampleLoaded sampleHostShortLength).2 } := by
  decide

/-! ## The lifecycle invariant -/

/-- The invariant of section 3: the provider handle is non-null exactly in phase
`Initialized`. -/
theorem step_preserves_invariant (l l' : Lifecycle) (op : Op)
    (hContract : op.Contract) (hStep : l.step op = some l')
    (hInv : l.state.QuicPlatform.RngAlgorithm ≠ NULL ↔ l.phase = .Initialized) :
    l'.state.QuicPlatform.RngAlgorithm ≠ NULL ↔ l'.phase = .Initialized := by
  cases op with
  | Load d r f =>
    simp only [Lifecycle.step] at hStep
    split_ifs at hStep
    simp only [Option.some.injEq] at hStep
    subst hStep
    simp [QuicPlatformSystemLoad, State.call]
  | Initialize host =>
    simp only [Lifecycle.step] at hStep
    by_cases hp : l.phase = .Loaded
    · rw [if_pos hp] at hStep
      simp only [Option.some.injEq] at hStep
      subst hStep
      cases hf : QUIC_FAILED (QuicPlatformInitialize l.state host).1
      · have hAll := initialize_allSucceed l.state host hf
        obtain ⟨h, hh, hne⟩ := hContract hAll.1
        have hv : (QuicPlatformInitialize l.state host).2.QuicPlatform.RngAlgorithm = h := by
          rw [initialize_of_allSucceed l.state host hAll]
          simp [hh]
        simp only [hv, Bool.false_eq_true, if_false, iff_true]
        exact hne
      · simp [initialize_failure_handle l.state host hf]
    · rw [if_neg hp] at hStep
      cases hStep
  | Uninitialize =>
    simp only [Lifecycle.step] at hStep
    split_ifs at hStep
    simp only [Option.some.injEq] at hStep
    subst hStep
    simp [State.call, QuicPlatformUninitialize]
  | Unload =>
    simp only [Lifecycle.step] at hStep
    split_ifs at hStep with hp
    simp only [Option.some.injEq] at hStep
    subst hStep
    have hn : l.state.QuicPlatform.RngAlgorithm = NULL := by
      by_contra hc
      have := hInv.mp hc
      rw [hp] at this
      cases this
    simp [QuicPlatformSystemUnload, State.call, hn]

/-- The invariant is kept along every run. -/
theorem run_preserves_invariant (ops : List Op) (l l' : Lifecycle)
    (hContract : ∀ op ∈ ops, op.Contract) (hRun : l.run ops = some l')
    (hInv : l.state.QuicPlatform.RngAlgorithm ≠ NULL ↔ l.phase = .Initialized) :
    l'.state.QuicPlatform.RngAlgorithm ≠ NULL ↔ l'.phase = .Initialized := by
  induction ops generalizing l with
  | nil =>
    simp only [Lifecycle.run, Option.some.injEq] at hRun
    subst hRun
    exact hInv
  | cons op ops ih =>
    simp only [Lifecycle.run] at hRun
    cases hs : l.step op with
    | none => simp [hs] at hRun
    | some m =>
      simp only [hs] at hRun
      exact ih m (fun o ho => hContract o (List.mem_cons_of_mem _ ho)) hRun
        (step_preserves_invariant l m op (hContract op (List.mem_cons_self _ _)) hs hInv)

/-- C10: in every state reached from `Unloaded` by a sequence of `Load`,
`Initialize` (succeeding or failing at any step), `Uninitialize` and `Unload`,
each called in its required phase on a host whose successful provider opens
yield a non-null handle, the handle is non-null exactly when the phase is
`Initialized`.  When the sequence is `Load`, an `Initialize` whose three steps
succeed with handle `h`, `Uninitialize`, `Unload`, the final phase is `Unloaded`,
the handle is null, the calls made are exactly the fourteen listed, with
`QuicTlsLibraryUninitialize` before the close of `h`, one provider open and one
provider close. -/
theorem lifecycle_invariant (ops : List Op) (l : Lifecycle)
    (hContract : ∀ op ∈ ops, op.Contract)
    (hRun : Lifecycle.initial.run ops = some l) :
    (l.state.QuicPlatform.RngAlgorithm ≠ NULL ↔ l.phase = .Initialized)
    ∧ ∀ (DriverObject RegistryPath PerformanceFrequency : Nat) (host : InitOutcome)
        (h : Nat),
        host.AllSucceed → host.Open.phAlgorithm = some h →
        ops = [.Load DriverObject RegistryPath PerformanceFrequency, .Initialize host,
               Op.Uninitialize, .Unload] →
        l.phase = .Unloaded
        ∧ l.state.QuicPlatform.RngAlgorithm = NULL
        ∧ l.state.Calls =
            [.EventRegisterMicrosoft_Quic,
             .InitializeTelemetryAssertsKM RegistryPath,
             .KeQueryPerformanceCounter,
             .QuicTraceLogInfo ("[ sys] Loaded") [],
             .BCryptOpenAlgorithmProvider,
             .ZwQuerySystemInformation sizeof_SYSTEM_BASIC_INFORMATION NULL,
             .QuicTlsLibraryInitialize,
             .QuicTraceLogInfo
               ("[ sys] Initialized (PageSize = %u bytes; AvailMem = %llu bytes)")
               [host.Query.SystemInformation.PageSize, l.state.QuicTotalMemory],
             Call.QuicTlsLibraryUninitialize,
             .BCryptCloseAlgorithmProvider h 0,
             .QuicTraceLogInfo ("[ sys] Uninitialized") [],
             .QuicTraceLogInfo ("[ sys] Unloaded") [],
             .UninitializeTelemetryAssertsKM,
             .EventUnregisterMicrosoft_Quic]
        ∧ l.state.Calls.indexOf Call.QuicTlsLibraryUninitialize
            < l.state.Calls.indexOf (.BCryptCloseAlgorithmProvider h 0)
        ∧ l.state.Calls.countP Call.isOpen = 1
        ∧ l.state.Calls.countP Call.isClose = 1
        ∧ l.state.Calls.count (.BCryptCloseAlgorithmProvider h 0) = 1 := by
  refine ⟨run_preserves_invariant ops Lifecycle.initial l hContract hRun (by decide), ?_⟩
  intro d r f host h hAll hh hops
  subst hops
  have hOk : QUIC_FAILED host.Tls = false := hAll.2.2
  simp only [Lifecycle.run, Lifecycle.step, Lifecycle.initial, if_true,
    initialize_of_allSucceed _ host hAll, hOk, Bool.false_eq_true, if_false,
    Option.some.injEq] at hRun
  subst hRun
  simp [QuicPlatformSystemLoad, QuicPlatformUninitialize, QuicPlatformSystemUnload,
    State.call, State.initial, hh, Call.isOpen, Call.isClose, List.indexOf_cons]

/-- Witness of C10: the full cycle `sampleCycle` from the initial state. -/
theorem lifecycle_invariant_witness :
    Lifecycle.initial.run sampleCycle = some sampleUnloaded
    ∧ (sampleUnloaded.state.QuicPlatform.RngAlgorithm ≠ NULL
        ↔ sampleUnloaded.phase = .Initialized)
    ∧ sampleUnloaded.phase = .Unloaded
    ∧ sampleUnloaded.state.QuicPlatform.RngAlgorithm = NULL
    ∧ sampleUnloaded.state.Calls.indexOf Call.QuicTlsLibraryUninitialize
        < sampleUnloaded.state.Calls.indexOf (.BCryptCloseAlgorithmProvider 7 0)
    ∧ sampleUnloaded.state.Calls.countP Call.isOpen = 1
    ∧ sampleUnloaded.state.Calls.countP Call.isClose = 1 :=
  have hc : ∀ op ∈ sampleCycle, op.Contract := by
    intro op hop
    simp only [sampleCycle, List.mem_cons, List.mem_singleton, List.not_mem_nil,
      or_false] at hop
    rcases hop with rfl | rfl | rfl | rfl
    · trivial
    · exact fun _ => ⟨7, rfl, by decide⟩
    · trivial
    · trivial
  have w := lifecycle_invariant sampleCycle sampleUnloaded hc (by decide)
  have v := w.2 100 200 10000000 (sampleHostOk 7) 7 ⟨by decide, by decide, by decide⟩
    rfl rfl
  ⟨by decide, w.1, v.1, v.2.1, v.2.2.2.1, v.2.2.2.2.1, v.2.2.2.2.2.1⟩

end WinKernel
